import Mathlib

/-!
Shallow embedding of `main.py` of the `sdarot` download agent, together with
proofs settling the specification claims about it.

The program's components are embedded as executable Lean definitions:

* `findAllEp` — the episode extraction performed by `EPISODE_REGEX.findall`
  followed by `int(...)` in `get_episodes`;
* `get_episodes` — the season-listing fetch (over an explicit fetch outcome);
* `buildMissions` / `download` — the mission-building loop;
* `run_mission` — per-mission resolve-then-download with its try/except;
* `runBatch` — the `pool.map` / progress-bar drain loop;
* `load_episode` / `quit_web` — the resolver with its context-manager teardown;
* `download_video` — the streaming downloader with an explicit file-effect trace;
* `PoolStep` — a small-step model of the fixed-size worker pool.

External collaborators (selenium, aiohttp, the filesystem) are passed in as
explicit oracles: a stage that can raise in Python is an oracle returning
`StageResult`, and an uncaught Python exception is an `Except.error`.
-/

namespace Sdarot

/-- The `SITE` constant of `main.py`. -/
def SITE : String := "https://sdarot.tv/watch"

/-- The `NUMBER_OF_PARALLEL_MISSIONS` constant of `main.py` (pool size). -/
def NUMBER_OF_PARALLEL_MISSIONS : Nat := 4

/-- The `Mission` namedtuple: `Mission = namedtuple('Mission', 'season episode url output')`. -/
structure Mission where
  season : Nat
  episode : Nat
  url : String
  output : String

deriving instance DecidableEq, Repr for Mission

/-! ## Episode extraction (`EPISODE_REGEX.findall` + `int`)

`EPISODE_REGEX = re.compile(r'<li data-episode="(\d+)"')`. A match is the
literal text `<li data-episode="`, then one or more digits (the capture),
then a closing quote. `findall` scans left to right, resuming after the end
of each match, advancing one character past a failed attempt. -/

/-- The literal part of `EPISODE_REGEX` preceding the digit capture group. -/
def markerPat : List Char := "<li data-episode=\"".data

/-- Numeric value of a decimal digit character (how `int` reads one digit). -/
def charVal (c : Char) : Nat := c.toNat - '0'.toNat

/-- Value of a decimal digit string, as computed by Python's `int`. -/
def digitsToNat (ds : List Char) : Nat :=
  ds.foldl (fun acc c => 10 * acc + charVal c) 0

/-- Split a maximal leading run of digit characters (the greedy `\d+`). -/
def takeDigits : List Char → List Char × List Char
  | [] => ([], [])
  | c :: cs =>
    if c.isDigit then
      let r := takeDigits cs
      (c :: r.1, r.2)
    else ([], c :: cs)

/-- Does `p` occur literally at the head of `s`? -/
def litMatch : List Char → List Char → Bool
  | [], _ => true
  | _ :: _, [] => false
  | p :: ps, c :: cs => p == c && litMatch ps cs

/-- The tail of an attempted match, after the literal marker text: `ds` is
the greedy digit run, `rest` what follows it. The match succeeds when the
run is nonempty (`\d+`) and a closing quote follows. -/
def matchTail (ds rest : List Char) : Option (Nat × Nat) :=
  if ds = [] then none
  else
    match rest with
    | [] => none
    | c :: _ =>
      if c = '"' then some (digitsToNat ds, markerPat.length + ds.length + 1)
      else none

/-- One attempted `EPISODE_REGEX` match at the head of `s`: on success,
the captured number and the total number of characters consumed. -/
def matchMarker (s : List Char) : Option (Nat × Nat) :=
  if litMatch markerPat s then
    matchTail (takeDigits (s.drop markerPat.length)).1 (takeDigits (s.drop markerPat.length)).2
  else none

/-- Fuelled scan loop of `findall`: at each position, either consume a full
match and emit its captured number, or advance one character. The fuel is
only a structural-termination device; `s.length` fuel always suffices. -/
def findAllGo : Nat → List Char → List Nat
  | 0, _ => []
  | fuel + 1, s =>
    match matchMarker s with
    | some nk => nk.1 :: findAllGo fuel (s.drop nk.2)
    | none =>
      match s with
      | [] => []
      | _ :: cs => findAllGo fuel cs

/-- `[int(i) for i in EPISODE_REGEX.findall(text)]`: all episode numbers
extracted from a page body, in match order. -/
def findAllEp (s : List Char) : List Nat := findAllGo s.length s

/-! ## Decimal rendering of episode numbers

Used to build listing pages for the extraction theorems: `natDigits n` is the
decimal text of `n`, exactly the digit string Python would have matched. -/

/-- Decimal digit characters of `n`, most significant first; the fuel is a
structural-termination device, `n + 1` fuel always suffices. -/
def natDigitsGo : Nat → Nat → List Char
  | 0, _ => []
  | fuel + 1, n =>
    if n < 10 then [Nat.digitChar n]
    else natDigitsGo fuel (n / 10) ++ [Nat.digitChar (n % 10)]

/-- Decimal text of `n` (Python's `str(n)` for a nonnegative `n`). -/
def natDigits (n : Nat) : List Char := natDigitsGo (n + 1) n

/-- A full `EPISODE_REGEX` match for episode `e`: the literal marker text,
the decimal episode number, and the closing quote. -/
def markerChars (e : Nat) : List Char := markerPat ++ natDigits e ++ ['"']

/-- A listing page consisting of one episode marker per listed episode. -/
def pageOf : List Nat → List Char
  | [] => []
  | e :: es => markerChars e ++ pageOf es

/-- A literal listing page with markers for episodes 1, 2 and 5, surrounded
by non-marker markup. -/
def samplePage : List Char :=
  "<ul class=\"episodes\"><li data-episode=\"1\"><a href=\"#\">Ep 1</a></li><li data-episode=\"2\"><a href=\"#\">Ep 2</a></li><li data-episode=\"5\"><a href=\"#\">Ep 5</a></li></ul>".data

/-! ## Stage oracles

A Python stage that can raise is modelled as an oracle returning
`StageResult`: `ok` is a normal return, `exn` an exception. An exception
that a function does not catch becomes an `Except.error` of that function's
result. -/

/-- Result of invoking an external stage: normal return or raised exception. -/
inductive StageResult (α : Type) where
  | ok (val : α)
  | exn (msg : String)

deriving instance DecidableEq, Repr for StageResult

/-- What `load_episode` hands back on success: the media element's `src`
attribute and the session's cookies (`{name: value}`). -/
structure Resolved where
  videoUrl : String
  cookies : List (String × String)

deriving instance DecidableEq, Repr for Resolved

/-! ## Resolver (`quit_web` / `load_episode`)

`load_episode` wraps a fresh driver in the `quit_web` context manager, whose
`finally` block calls `driver.quit()` on every exit path of the body. The
five body steps (`driver.get`, the 40-unit wait, the `proceed` click, the
5-unit wait, reading the `src` attribute) can each raise; the cookies read
cannot fail once the session is live. Driver creation itself
(`webdriver.Firefox()`) happens before the context manager is entered. -/

/-- The behaviour of one rendering session: the outcome of each step
`load_episode` performs on it. -/
structure RenderSession where
  navigate : StageResult Unit
  waitGate : StageResult Unit
  clickProceed : StageResult Unit
  waitVideo : StageResult Unit
  videoSrc : StageResult String
  cookies : List (String × String)

/-- Observable effect of one `load_episode` call: its result (an
`Except.error` is an exception propagating to the caller), whether a
rendering session was created, and whether `driver.quit()` ran. -/
structure ResolveEffect where
  result : Except String Resolved
  sessionCreated : Bool
  quitCalled : Bool

/-- Embedding of `load_episode`: create the driver, run the body inside
`quit_web` (so `quit` runs on every body exit path), and return the first
failing step's exception, if any, as the propagated error. -/
def load_episode (create : StageResult RenderSession) : ResolveEffect :=
  match create with
  | StageResult.exn e => ⟨Except.error e, false, false⟩
  | StageResult.ok s =>
    let body : Except String Resolved :=
      match s.navigate with
      | StageResult.exn e => Except.error e
      | StageResult.ok _ =>
        match s.waitGate with
        | StageResult.exn e => Except.error e
        | StageResult.ok _ =>
          match s.clickProceed with
          | StageResult.exn e => Except.error e
          | StageResult.ok _ =>
            match s.waitVideo with
            | StageResult.exn e => Except.error e
            | StageResult.ok _ =>
              match s.videoSrc with
              | StageResult.exn e => Except.error e
              | StageResult.ok src => Except.ok ⟨src, s.cookies⟩
    ⟨body, true, true⟩

/-! ## Downloader (`download_video`) -/

/-- An HTTP response to the stream GET: status code and body chunks. -/
structure HttpResponse where
  status : Nat
  chunks : List (List Nat)

deriving instance DecidableEq, Repr for HttpResponse

/-- Observable effect of one `download_video` call on a received response:
the returned boolean, the paths opened for (truncating) write, and the
write operations performed. -/
structure DownloadEffect where
  success : Bool
  opened : List String
  written : List (String × List Nat)

deriving instance DecidableEq, Repr for DownloadEffect

/-- Embedding of `download_video` once a response has arrived: a non-200
status returns `False` before the output file is ever opened; a 200 status
opens the output and streams every chunk to it, then returns `True`. -/
def download_video (resp : HttpResponse) (output : String) : DownloadEffect :=
  if resp.status ≠ 200 then ⟨false, [], []⟩
  else ⟨true, [output], resp.chunks.map (fun chunk => (output, chunk))⟩

/-! ## Episode Lister (`get_episodes`) -/

/-- Outcome of the season-page GET: either a response (any status) or a
transport-level failure raised by the HTTP client. -/
inductive FetchOutcome where
  | resp (status : Nat) (body : List Char)
  | transportFailure (msg : String)

deriving instance DecidableEq, Repr for FetchOutcome

/-- Embedding of `get_episodes`: a non-200 response returns `[]`; a 200
response returns the extracted episode numbers. The function has no
`try`/`except`, so a transport failure raised by `session.get` propagates
to the caller (`Except.error`). -/
def get_episodes (fetch : FetchOutcome) : Except String (List Nat) :=
  match fetch with
  | FetchOutcome.transportFailure e => Except.error e
  | FetchOutcome.resp status body =>
    if status ≠ 200 then Except.ok []
    else Except.ok (findAllEp body)

/-! ## Mission Runner (`run_mission`) -/

/-- The spec's `MissionOutcome` classification of the three normal-return
paths of `run_mission_async`. -/
inductive MissionOutcome where
  | success
  | resolveFailed
  | downloadFailed

deriving instance DecidableEq, Repr for MissionOutcome

/-- Observable effect of one `run_mission` call: its outcome (an
`Except.error` is an exception propagating out of `run_until_complete`),
the failure lines printed, and whether `download_video` was invoked. -/
structure RunResult where
  outcome : Except String MissionOutcome
  logs : List String
  downloadInvoked : Bool

/-- The failure line printed when the resolve stage raises. -/
def resolveFailMsg (m : Mission) : String :=
  "Failed to get episode url of season " ++ toString m.season ++ " / episode " ++ toString m.episode

/-- The failure line printed when `download_video` returns `False`. -/
def downloadFailMsg (m : Mission) : String :=
  "Failed to download video of season " ++ toString m.season ++ " / episode " ++ toString m.episode

/-- Embedding of `run_mission`. `resolve` is the resolve stage
(`load_episode` run in an executor); `fetchVideo` is the download stage
(`download_video`), whose `exn` case is an exception raised inside it
(transport or file error) and whose `ok b` case is its boolean return.
Only the resolve stage sits inside the `try`/`except`; an exception from
the download stage is not caught and becomes an `Except.error`. -/
def run_mission (resolve : String → StageResult Resolved)
    (fetchVideo : String → List (String × String) → String → StageResult Bool)
    (m : Mission) : RunResult :=
  match resolve m.url with
  | StageResult.exn _ => ⟨Except.ok MissionOutcome.resolveFailed, [resolveFailMsg m], false⟩
  | StageResult.ok r =>
    match fetchVideo r.videoUrl r.cookies m.output with
    | StageResult.exn e => ⟨Except.error e, [], true⟩
    | StageResult.ok false =>
      ⟨Except.ok MissionOutcome.downloadFailed, [downloadFailMsg m], true⟩
    | StageResult.ok true => ⟨Except.ok MissionOutcome.success, [], true⟩

/-- A mission as the worker pool executes it: prints and outcome are side
effects, the pool's future records either normal completion or the raised
exception. -/
def missionTask (resolve : String → StageResult Resolved)
    (fetchVideo : String → List (String × String) → String → StageResult Bool)
    (m : Mission) : Except String Unit :=
  match (run_mission resolve fetchVideo m).outcome with
  | Except.error e => Except.error e
  | Except.ok _ => Except.ok ()

/-! ## Batch Orchestrator (the `pool.map` drain loop of `download`) -/

/-- Embedding of `for _ in pool.map(run_mission, missions):
progress_bar.update(1)`: results are drained in submission order, each
normal completion adds one progress increment, and the first result that
raises re-raises in the draining loop, which then stops. Returns the number
of increments performed and the uncaught exception, if any. -/
def runBatch (runOne : Mission → Except String Unit) : List Mission → Nat × Option String
  | [] => (0, none)
  | m :: rest =>
    match runOne m with
    | Except.error e => (0, some e)
    | Except.ok _ =>
      let r := runBatch runOne rest
      (r.1 + 1, r.2)

/-! ## Mission Builder and entry point (`download`, `main`) -/

/-- `season_url = f'{SITE}/{show_id}/season/{season}'`. -/
def seasonUrl (showId season : Nat) : String :=
  SITE ++ "/" ++ toString showId ++ "/season/" ++ toString season

/-- `episode_url = f'{season_url}/episode/{episode}'`. -/
def episodeUrl (showId season episode : Nat) : String :=
  seasonUrl showId season ++ "/episode/" ++ toString episode

/-- `season_directory = f'Season_{season}'`. -/
def seasonDirectory (season : Nat) : String := "Season_" ++ toString season

/-- `os.path.join(season_directory, f'Episode_{episode}.mp4')` (POSIX join). -/
def episodeOutput (season episode : Nat) : String :=
  seasonDirectory season ++ "/" ++ ("Episode_" ++ toString episode ++ ".mp4")

/-- `range(first_season, last_season + 1)`: the seasons visited, in order. -/
def seasonsList (first last : Nat) : List Nat := List.range' first (last + 1 - first)

/-- The mission-building loop of `download`: for each season in order,
append one mission per listed episode, in listing order. `lister` is the
episode listing each season's `get_episodes` call returns. -/
def buildMissions (showId : Nat) (seasons : List Nat) (lister : Nat → List Nat) :
    List Mission :=
  seasons.foldl
    (fun acc season =>
      acc ++ (lister season).map
        (fun episode =>
          ⟨season, episode, episodeUrl showId season episode, episodeOutput season episode⟩))
    []

/-- Mission list as §4.2 of the spec words it: seasons in ascending range
order, one mission per discovered episode in listing order, with
`sourceURL = {site}/{showID}/season/{season}/episode/{episode}` and
`outputPath = Season_{season}/Episode_{episode}.mp4`. Stated from the
spec's words, to be compared with `buildMissions`. -/
def specMissions (showId first last : Nat) (lister : Nat → List Nat) : List Mission :=
  (seasonsList first last).flatMap fun season =>
    (lister season).map fun episode =>
      ⟨season, episode,
       SITE ++ "/" ++ toString showId ++ "/season/" ++ toString season ++ "/episode/"
         ++ toString episode,
       "Season_" ++ toString season ++ "/" ++ ("Episode_" ++ toString episode ++ ".mp4")⟩

/-- The side effects of the sequential part of `download`: season listing
URLs fetched, directories created, missions built. -/
structure BatchTrace where
  fetched : List String
  created : List String
  missions : List Mission

deriving instance DecidableEq, Repr for BatchTrace

/-- Embedding of `download`: the sequential building loop (fetch each
season's listing, create the season directory when absent, append the
season's missions) followed by the pool drain loop. `lister` gives each
season's listing result and `dirExists` the initial filesystem state.
Returns the trace, the progress increments, and the uncaught exception of
the drain loop, if any. -/
def download (showId : Nat) (seasons : List Nat) (lister : Nat → List Nat)
    (dirExists : String → Bool)
    (resolve : String → StageResult Resolved)
    (fetchVideo : String → List (String × String) → String → StageResult Bool) :
    BatchTrace × Nat × Option String :=
  let tr := seasons.foldl
    (fun tr season =>
      let episodes := lister season
      let sd := seasonDirectory season
      { fetched := tr.fetched ++ [seasonUrl showId season],
        created := if dirExists sd then tr.created else tr.created ++ [sd],
        missions := tr.missions ++ episodes.map
          (fun episode =>
            ⟨season, episode, episodeUrl showId season episode,
             episodeOutput season episode⟩) })
    ⟨[], [], []⟩
  let b := runBatch (missionTask resolve fetchVideo) tr.missions
  (tr, b.1, b.2)

/-- Embedding of `main`: parse the three integer arguments (already done by
`click`), run `download` over `range(first_season, last_season + 1)`, and
exit — code 0 when the batch completed, nonzero only when an exception
escaped to the top level. There is no validation of the season range. -/
def main (showId first last : Nat) (lister : Nat → List Nat)
    (dirExists : String → Bool)
    (resolve : String → StageResult Resolved)
    (fetchVideo : String → List (String × String) → String → StageResult Bool) :
    BatchTrace × Nat × Nat :=
  let r := download showId (seasonsList first last) lister dirExists resolve fetchVideo
  (r.1, r.2.1, if r.2.2.isSome then 1 else 0)

/-! ## Worker pool model (`ThreadPoolExecutor(max_workers=NUMBER_OF_PARALLEL_MISSIONS)`)

Each pool thread runs `run_mission` for one mission at a time: a blocking
resolve step, then (on resolve success) a download step. A small-step
relation over the pool's state; a worker slot is created once and holds at
most one mission in one phase at a time. -/

/-- What one worker slot of the pool is doing. -/
inductive WorkerPhase where
  | idle
  | resolving (m : Mission)
  | downloading (m : Mission)

deriving instance DecidableEq, Repr for WorkerPhase

/-- The pool's state: missions not yet picked up, and each slot's phase. -/
structure PoolState where
  pending : List Mission
  workers : List WorkerPhase

deriving instance DecidableEq, Repr for PoolState

/-- The pool as `download` creates it: all missions submitted, all
`NUMBER_OF_PARALLEL_MISSIONS` worker slots idle. -/
def initPool (missions : List Mission) : PoolState :=
  ⟨missions, List.replicate NUMBER_OF_PARALLEL_MISSIONS WorkerPhase.idle⟩

/-- Is this slot inside its mission's resolve step? -/
def isResolving : WorkerPhase → Bool
  | WorkerPhase.resolving _ => true
  | _ => false

/-- Number of resolve operations in flight. -/
def resolvingCount (s : PoolState) : Nat := (s.workers.filter isResolving).length

/-- One scheduling step of the pool: an idle worker picks the next pending
mission and enters its resolve step; a resolving worker either moves to the
download step (resolve succeeded) or finishes (resolve raised, caught by
`run_mission`); a downloading worker finishes. -/
inductive PoolStep : PoolState → PoolState → Prop where
  | pick (i : Nat) (m : Mission) (rest : List Mission) (w : List WorkerPhase)
      (hi : w.get? i = some WorkerPhase.idle) :
      PoolStep ⟨m :: rest, w⟩ ⟨rest, w.set i (WorkerPhase.resolving m)⟩
  | resolveOk (i : Nat) (m : Mission) (p : List Mission) (w : List WorkerPhase)
      (hi : w.get? i = some (WorkerPhase.resolving m)) :
      PoolStep ⟨p, w⟩ ⟨p, w.set i (WorkerPhase.downloading m)⟩
  | resolveFail (i : Nat) (m : Mission) (p : List Mission) (w : List WorkerPhase)
      (hi : w.get? i = some (WorkerPhase.resolving m)) :
      PoolStep ⟨p, w⟩ ⟨p, w.set i WorkerPhase.idle⟩
  | finish (i : Nat) (m : Mission) (p : List Mission) (w : List WorkerPhase)
      (hi : w.get? i = some (WorkerPhase.downloading m)) :
      PoolStep ⟨p, w⟩ ⟨p, w.set i WorkerPhase.idle⟩

/-- A pool state the batch can reach from its initial state. -/
def PoolReachable (missions : List Mission) (s : PoolState) : Prop :=
  Relation.ReflTransGen PoolStep (initPool missions) s

/-! ## Concrete collaborator stubs, used by witnesses and counterexamples -/

/-- A concrete mission (season 1, episode 2). -/
def cMission : Mission :=
  ⟨1, 2, "https://sdarot.tv/watch/82/season/1/episode/2", "Season_1/Episode_2.mp4"⟩

/-- A resolve stage that succeeds with a fixed stream URL and cookie set. -/
def resolveOkStub : String → StageResult Resolved :=
  fun _ => StageResult.ok ⟨"https://media.sdarot.tv/ep.mp4", [("Sdarot", "abc")]⟩

/-- A resolve stage that raises (selenium timeout). -/
def resolveExnStub : String → StageResult Resolved :=
  fun _ => StageResult.exn "TimeoutException"

/-- A download stage that raises mid-transfer (transport error). -/
def downloadExnStub : String → List (String × String) → String → StageResult Bool :=
  fun _ _ _ => StageResult.exn "ServerDisconnectedError"

/-- A download stage that returns the boolean `b` normally. -/
def downloadOkStub (b : Bool) : String → List (String × String) → String → StageResult Bool :=
  fun _ _ _ => StageResult.ok b

/-! # Theorems

First the helper lemmas about decimal digits and the `EPISODE_REGEX` scan,
then one theorem (plus witness or counterexample) per specification claim. -/

/-- A digit below 10 round-trips through `Nat.digitChar`. -/
theorem charVal_digitChar {d : Nat} (h : d < 10) : charVal (Nat.digitChar d) = d := by
  interval_cases d <;> decide

/-- `Nat.digitChar` of a digit below 10 is a digit character. -/
theorem isDigit_digitChar {d : Nat} (h : d < 10) : (Nat.digitChar d).isDigit = true := by
  interval_cases d <;> decide

/-- Appending one digit character multiplies the value by ten and adds it. -/
theorem digitsToNat_append_digit (xs : List Char) (c : Char) :
    digitsToNat (xs ++ [c]) = 10 * digitsToNat xs + charVal c := by
  simp [digitsToNat, List.foldl_append]

/-- With enough fuel, `natDigitsGo` renders `n` faithfully: its digits parse
back to `n`, every character is a digit, and the rendering is nonempty. -/
theorem natDigitsGo_spec :
    ∀ fuel n, n < 10 ^ fuel →
      digitsToNat (natDigitsGo fuel n) = n
      ∧ (∀ c ∈ natDigitsGo fuel n, c.isDigit = true)
      ∧ (0 < fuel → natDigitsGo fuel n ≠ []) := by
  intro fuel
  induction fuel with
  | zero =>
    intro n hn
    have : n = 0 := by omega
    subst this
    exact ⟨rfl, by simp [natDigitsGo], fun h => absurd h (by omega)⟩
  | succ fuel ih =>
    intro n hn
    by_cases hsmall : n < 10
    · refine ⟨?_, ?_, ?_⟩
      · simp [natDigitsGo, hsmall, digitsToNat, charVal_digitChar hsmall]
      · simp [natDigitsGo, hsmall, isDigit_digitChar hsmall]
      · simp [natDigitsGo, hsmall]
    · have hdiv : n / 10 < 10 ^ fuel := by
        have h10 : 10 ^ (fuel + 1) = 10 ^ fuel * 10 := by ring
        omega
      obtain ⟨hval, hdig, _⟩ := ih (n / 10) hdiv
      refine ⟨?_, ?_, ?_⟩
      · rw [natDigitsGo, if_neg hsmall, digitsToNat_append_digit, hval,
          charVal_digitChar (Nat.mod_lt n (by omega))]
        omega
      · intro c hc
        rw [natDigitsGo, if_neg hsmall] at hc
        rcases List.mem_append.mp hc with h | h
        · exact hdig c h
        · simp at h
          rw [h]
          exact isDigit_digitChar (Nat.mod_lt n (by omega))
      · intro _
        rw [natDigitsGo, if_neg hsmall]
        simp

/-- `natDigits` parses back to the number it renders. -/
theorem digitsToNat_natDigits (n : Nat) : digitsToNat (natDigits n) = n := by
  have hn : n < 10 ^ (n + 1) := by
    calc n < 10 ^ n := Nat.lt_pow_self (by norm_num) n
    _ ≤ 10 ^ (n + 1) := Nat.pow_le_pow_right (by norm_num) (by omega)
  exact (natDigitsGo_spec (n + 1) n hn).1

/-- Every character of `natDigits n` is a digit character. -/
theorem natDigits_isDigit (n : Nat) : ∀ c ∈ natDigits n, c.isDigit = true := by
  have hn : n < 10 ^ (n + 1) := by
    calc n < 10 ^ n := Nat.lt_pow_self (by norm_num) n
    _ ≤ 10 ^ (n + 1) := Nat.pow_le_pow_right (by norm_num) (by omega)
  exact (natDigitsGo_spec (n + 1) n hn).2.1

/-- `natDigits n` is never empty. -/
theorem natDigits_ne_nil (n : Nat) : natDigits n ≠ [] := by
  have hn : n < 10 ^ (n + 1) := by
    calc n < 10 ^ n := Nat.lt_pow_self (by norm_num) n
    _ ≤ 10 ^ (n + 1) := Nat.pow_le_pow_right (by norm_num) (by omega)
  exact (natDigitsGo_spec (n + 1) n hn).2.2 (by omega)

/-- A pattern matches literally at the head of itself plus anything. -/
theorem litMatch_self_append : ∀ (p t : List Char), litMatch p (p ++ t) = true := by
  intro p
  induction p with
  | nil => intro t; rfl
  | cons c cs ih => intro t; simp [litMatch, ih]

/-- The greedy digit run stops exactly at a closing quote. -/
theorem takeDigits_digits_quote :
    ∀ (ds s : List Char), (∀ c ∈ ds, c.isDigit = true) →
      takeDigits (ds ++ '"' :: s) = (ds, '"' :: s) := by
  intro ds
  induction ds with
  | nil => intro s _; simp [takeDigits]
  | cons c cs ih =>
    intro s h
    have hc : c.isDigit = true := h c (by simp)
    simp [takeDigits, hc, ih s (fun x hx => h x (by simp [hx]))]

/-- At the head of a rendered marker for episode `e`, the scanner matches
and consumes exactly the marker. -/
theorem matchMarker_marker (e : Nat) (s : List Char) :
    matchMarker (markerChars e ++ s) = some (e, (markerChars e).length) := by
  have hsplit : markerChars e ++ s = markerPat ++ (natDigits e ++ '"' :: s) := by
    simp [markerChars]
  rw [hsplit]
  unfold matchMarker
  rw [if_pos (litMatch_self_append markerPat _), List.drop_left,
    takeDigits_digits_quote (natDigits e) s (natDigits_isDigit e)]
  unfold matchTail
  rw [if_neg (natDigits_ne_nil e)]
  have hlen : (markerChars e).length = markerPat.length + (natDigits e).length + 1 := by
    simp only [markerChars, List.length_append, List.length_cons, List.length_nil]
  simp [digitsToNat_natDigits, hlen]

/-- The scanner never matches the empty page. -/
theorem matchMarker_nil : matchMarker [] = none := by decide

/-- A successful match consumes at least one character. -/
theorem matchMarker_some_pos {s : List Char} {nk : Nat × Nat}
    (h : matchMarker s = some nk) : 1 ≤ nk.2 := by
  unfold matchMarker matchTail at h
  split at h
  · split at h
    · exact absurd h (by simp)
    · split at h
      · exact absurd h (by simp)
      · split at h
        · cases h
          simp
        · exact absurd h (by simp)
  · exact absurd h (by simp)

/-- `findAllGo` returns nothing on the empty page, for any fuel. -/
theorem findAllGo_nil : ∀ fuel, findAllGo fuel [] = [] := by
  intro fuel
  cases fuel with
  | zero => rfl
  | succ fuel => simp [findAllGo, matchMarker_nil]

/-- Fuel above the page length is irrelevant to `findAllGo`. -/
theorem findAllGo_fuel_eq :
    ∀ (fuel₁ fuel₂ : Nat) (s : List Char), s.length ≤ fuel₁ → s.length ≤ fuel₂ →
      findAllGo fuel₁ s = findAllGo fuel₂ s := by
  intro fuel₁
  induction fuel₁ with
  | zero =>
    intro fuel₂ s h1 _
    have : s = [] := List.eq_nil_of_length_eq_zero (by omega)
    subst this
    rw [findAllGo_nil, findAllGo_nil]
  | succ fuel₁ ih =>
    intro fuel₂ s h1 h2
    cases fuel₂ with
    | zero =>
      have : s = [] := List.eq_nil_of_length_eq_zero (by omega)
      subst this
      rw [findAllGo_nil, findAllGo_nil]
    | succ fuel₂ =>
      cases hm : matchMarker s with
      | some nk =>
        have hpos := matchMarker_some_pos hm
        have hdrop : (s.drop nk.2).length ≤ fuel₁ := by
          simp only [List.length_drop]
          omega
        have hdrop2 : (s.drop nk.2).length ≤ fuel₂ := by
          simp only [List.length_drop]
          omega
        simp only [findAllGo, hm]
        rw [ih fuel₂ (s.drop nk.2) hdrop hdrop2]
      | none =>
        cases s with
        | nil => rfl
        | cons c cs =>
          simp only [List.length_cons] at h1 h2
          simp only [findAllGo, hm]
          rw [ih fuel₂ cs (by omega) (by omega)]

/-- Scanning a rendered marker followed by any page emits the marker's
episode number and continues on the rest of the page. -/
theorem findAllEp_marker_append (e : Nat) (s : List Char) :
    findAllEp (markerChars e ++ s) = e :: findAllEp s := by
  have hk : 1 ≤ (markerChars e).length := by
    have := natDigits_ne_nil e
    simp [markerChars, markerPat]
  have hlen : (markerChars e ++ s).length = (markerChars e).length + s.length :=
    List.length_append _ _
  obtain ⟨n, hn⟩ : ∃ n, (markerChars e ++ s).length = n + 1 :=
    ⟨(markerChars e ++ s).length - 1, by omega⟩
  unfold findAllEp
  rw [hn]
  simp only [findAllGo, matchMarker_marker]
  rw [List.drop_left]
  exact congrArg (e :: ·) (findAllGo_fuel_eq n s.length s (by omega) (by omega))

set_option maxRecDepth 4000 in
/-- Claim C9: `listEpisodes` returns episode numbers in exactly the order
their markers appear in the markup, without deduplicating repeats: a page
made of markers for `es` yields exactly `es`; in particular the sample page
with markers 1, 2, 5 yields `[1, 2, 5]`, and a page repeating marker 4
yields `[4, 4]`. -/
theorem episode_extraction_order :
    (∀ es : List Nat, findAllEp (pageOf es) = es)
    ∧ findAllEp samplePage = [1, 2, 5]
    ∧ findAllEp (pageOf [4, 4]) = [4, 4] := by
  have hgen : ∀ es : List Nat, findAllEp (pageOf es) = es := by
    intro es
    induction es with
    | nil => rfl
    | cons e es ih => rw [pageOf, findAllEp_marker_append, ih]
  exact ⟨hgen, by decide, hgen [4, 4]⟩

/-- Claim C8: the rendering session `load_episode` creates is torn down
(`driver.quit()`) on every exit path, success or failure alike: `quit` runs
exactly when a session was created, whatever each rendering step does. -/
theorem resolver_session_teardown (create : StageResult RenderSession) :
    (load_episode create).quitCalled = (load_episode create).sessionCreated := by
  cases create <;> rfl

/-- Claim C6: on a non-200 response, `download_video` returns `False` and
performs no file operation at all on the output path — nothing is created,
opened or truncated. -/
theorem download_video_non200 (resp : HttpResponse) (output : String)
    (h : resp.status ≠ 200) :
    download_video resp output = ⟨false, [], []⟩ := by
  simp [download_video, h]

/-- Witness for `download_video_non200` at a concrete 404 response. -/
theorem download_video_non200_witness :
    download_video ⟨404, [[7, 7, 7]]⟩ "Season_1/Episode_2.mp4" = ⟨false, [], []⟩ :=
  download_video_non200 ⟨404, [[7, 7, 7]]⟩ "Season_1/Episode_2.mp4" (by decide)

/-- Claim C5 fails on the code: `get_episodes` has no exception handling,
so a transport failure raised by the HTTP client propagates to the caller
instead of yielding the empty sequence. -/
theorem get_episodes_transport_counterexample :
    get_episodes (FetchOutcome.transportFailure "ClientConnectorError")
        = Except.error "ClientConnectorError"
    ∧ get_episodes (FetchOutcome.transportFailure "ClientConnectorError")
        ≠ Except.ok [] := ⟨rfl, by simp [get_episodes]⟩

/-- Claim C5 (amended): once a response is received, `get_episodes` never
raises: a non-200 status yields the empty sequence and a 200 status yields
the extracted episodes; only a transport failure (no response) propagates
as an exception. -/
theorem get_episodes_response_no_error (status : Nat) (body : List Char) :
    (status ≠ 200 → get_episodes (FetchOutcome.resp status body) = Except.ok [])
    ∧ ∃ l, get_episodes (FetchOutcome.resp status body) = Except.ok l := by
  constructor
  · intro h
    simp [get_episodes, h]
  · by_cases h : status = 200
    · exact ⟨findAllEp body, by simp [get_episodes, h]⟩
    · exact ⟨[], by simp [get_episodes, h]⟩

/-- Witness for `get_episodes_response_no_error` at a concrete 404. -/
theorem get_episodes_response_no_error_witness :
    get_episodes (FetchOutcome.resp 404 []) = Except.ok [] :=
  (get_episodes_response_no_error 404 []).1 (by decide)

/-- Claim C3: when the resolve stage fails, `run_mission` logs the
season/episode-qualified failure line and returns the resolve-failure
outcome without invoking the downloader; conversely the downloader is only
ever invoked after a successful resolve of the same mission. -/
theorem resolve_failure_gates_download (resolve : String → StageResult Resolved)
    (fetchVideo : String → List (String × String) → String → StageResult Bool)
    (m : Mission) :
    (∀ e, resolve m.url = StageResult.exn e →
        run_mission resolve fetchVideo m =
          ⟨Except.ok MissionOutcome.resolveFailed, [resolveFailMsg m], false⟩)
    ∧ ((run_mission resolve fetchVideo m).downloadInvoked = true →
        ∃ r, resolve m.url = StageResult.ok r) := by
  constructor
  · intro e he
    simp [run_mission, he]
  · intro h
    cases hr : resolve m.url with
    | exn e => simp [run_mission, hr] at h
    | ok r => exact ⟨r, rfl⟩

/-- Witness for `resolve_failure_gates_download`: a resolve timeout on a
concrete mission yields the resolve-failed outcome, the failure line, and
no downloader call. -/
theorem resolve_failure_gates_download_witness :
    run_mission resolveExnStub (downloadOkStub true) cMission =
      ⟨Except.ok MissionOutcome.resolveFailed, [resolveFailMsg cMission], false⟩ :=
  (resolve_failure_gates_download resolveExnStub (downloadOkStub true) cMission).1
    "TimeoutException" rfl

/-- Claim C1 fails on the code: only the resolve stage sits inside the
`try`/`except` of `run_mission`; an exception raised by the download stage
(here a dropped connection) escapes `run_mission` instead of being
converted into an outcome. -/
theorem run_mission_escape_counterexample :
    (run_mission resolveOkStub downloadExnStub cMission).outcome
      = Except.error "ServerDisconnectedError" := rfl

/-- Claim C1 (amended): `run_mission` converts every resolve-stage failure
and every unsuccessful download return into an outcome; as long as the
download stage itself raises no exception, no exception escapes
`run_mission`. -/
theorem run_mission_containment (resolve : String → StageResult Resolved)
    (fetchVideo : String → List (String × String) → String → StageResult Bool)
    (m : Mission)
    (hdl : ∀ u c o, ∃ b, fetchVideo u c o = StageResult.ok b) :
    ∃ oc, (run_mission resolve fetchVideo m).outcome = Except.ok oc := by
  cases hr : resolve m.url with
  | exn e => exact ⟨MissionOutcome.resolveFailed, by simp [run_mission, hr]⟩
  | ok r =>
    obtain ⟨b, hb⟩ := hdl r.videoUrl r.cookies m.output
    cases b
    · exact ⟨MissionOutcome.downloadFailed, by simp [run_mission, hr, hb]⟩
    · exact ⟨MissionOutcome.success, by simp [run_mission, hr, hb]⟩

/-- Witness for `run_mission_containment`: with a non-raising download
stage and a failing resolve, the mission still ends in an outcome. -/
theorem run_mission_containment_witness :
    ∃ oc, (run_mission resolveExnStub (downloadOkStub true) cMission).outcome
      = Except.ok oc :=
  run_mission_containment resolveExnStub (downloadOkStub true) cMission
    (fun _ _ _ => ⟨true, rfl⟩)

/-- Claim C2 fails on the code: a mission whose download stage raises makes
the `pool.map` drain loop re-raise, so the orchestrator stops incrementing —
here one submitted mission produces zero progress increments. -/
theorem batch_increment_counterexample :
    (runBatch (missionTask resolveOkStub downloadExnStub) [cMission]).1
      ≠ [cMission].length := by decide

/-- Claim C2 (amended): as long as no mission raises an uncaught exception,
every submitted mission produces exactly one progress increment: the drain
loop performs `missions.length` increments and returns no exception, for a
batch of any size. -/
theorem batch_increments_eq_missions (runOne : Mission → Except String Unit)
    (missions : List Mission) (h : ∀ m ∈ missions, runOne m = Except.ok ()) :
    runBatch runOne missions = (missions.length, none) := by
  induction missions with
  | nil => rfl
  | cons m rest ih =>
    have hm := h m (by simp)
    have hrest := ih (fun x hx => h x (by simp [hx]))
    simp [runBatch, hm, hrest]

/-- Witness for `batch_increments_eq_missions`: a one-mission batch whose
resolve fails (an outcome, not an exception) performs exactly one
increment. -/
theorem batch_increments_eq_missions_witness :
    runBatch (missionTask resolveExnStub (downloadOkStub true)) [cMission]
      = ([cMission].length, none) :=
  batch_increments_eq_missions (missionTask resolveExnStub (downloadOkStub true))
    [cMission] (fun _ _ => by rfl)

/-- The append-accumulator loop of `buildMissions`, started from any
accumulator, is that accumulator followed by one mission per listed episode
of each season in order. -/
theorem buildMissions_flatMap (showId : Nat) (lister : Nat → List Nat) :
    ∀ (seasons : List Nat) (acc : List Mission),
      seasons.foldl
        (fun acc season =>
          acc ++ (lister season).map
            (fun episode =>
              (⟨season, episode, episodeUrl showId season episode,
                episodeOutput season episode⟩ : Mission)))
        acc
      = acc ++ seasons.flatMap
          (fun season =>
            (lister season).map
              (fun episode =>
                ⟨season, episode, episodeUrl showId season episode,
                 episodeOutput season episode⟩)) := by
  intro seasons
  induction seasons with
  | nil =>
    intro acc
    simp
  | cons x xs ih =>
    intro acc
    simp only [List.foldl_cons, List.flatMap_cons, ih, List.append_assoc]

/-- Claim C4: the Mission Builder emits exactly one mission per discovered
episode, with the spec's source URL and output path, seasons in ascending
range order and episodes in listing order; in particular range (2, 2) with
a lister returning `[1, 2]` yields exactly the two missions
`Season_2/Episode_1.mp4` and `Season_2/Episode_2.mp4`. -/
theorem mission_builder_missions :
    (∀ (showId first last : Nat) (lister : Nat → List Nat),
        buildMissions showId (seasonsList first last) lister
          = specMissions showId first last lister)
    ∧ (∀ first last : Nat, List.Pairwise (· < ·) (seasonsList first last))
    ∧ buildMissions 7 (seasonsList 2 2) (fun _ => [1, 2]) =
        [⟨2, 1, "https://sdarot.tv/watch/7/season/2/episode/1", "Season_2/Episode_1.mp4"⟩,
         ⟨2, 2, "https://sdarot.tv/watch/7/season/2/episode/2", "Season_2/Episode_2.mp4"⟩] := by
  refine ⟨?_, ?_, by decide⟩
  · intro showId first last lister
    unfold buildMissions specMissions
    rw [buildMissions_flatMap, List.nil_append]
    rfl
  · intro first last
    unfold seasonsList
    exact List.pairwise_lt_range' first (last + 1 - first)

/-- Claim C7 fails on the code: `main` performs no validation of the season
range; with `first > last` the `range` is simply empty, so the program does
no work and exits with code 0, not with a nonzero usage error. -/
theorem range_validation_counterexample :
    (main 82 2 1 (fun _ => [1, 2, 3]) (fun _ => false) resolveOkStub
        (downloadOkStub true)).2.2 = 0 := rfl

/-- Claim C7 (amended): with `first > last` the season range is empty, so
the run performs no listing fetch, creates no directory, builds no mission
— but no validation occurs and the process exits successfully with code 0. -/
theorem invalid_range_no_work (showId first last : Nat) (lister : Nat → List Nat)
    (dirExists : String → Bool) (resolve : String → StageResult Resolved)
    (fetchVideo : String → List (String × String) → String → StageResult Bool)
    (h : last < first) :
    main showId first last lister dirExists resolve fetchVideo
      = (⟨[], [], []⟩, 0, 0) := by
  have hs : seasonsList first last = [] := by
    unfold seasonsList
    have h0 : last + 1 - first = 0 := by omega
    rw [h0]
    rfl
  unfold main download
  rw [hs]
  rfl

/-- Witness for `invalid_range_no_work` at the concrete range (2, 1). -/
theorem invalid_range_no_work_witness :
    main 82 2 1 (fun _ => [1, 2, 3]) (fun _ => false) resolveExnStub
        (downloadOkStub true)
      = (⟨[], [], []⟩, 0, 0) :=
  invalid_range_no_work 82 2 1 (fun _ => [1, 2, 3]) (fun _ => false) resolveExnStub
    (downloadOkStub true) (by omega)

/-- One pool step never changes the number of worker slots. -/
theorem poolStep_workers_length {a b : PoolState} (h : PoolStep a b) :
    b.workers.length = a.workers.length := by
  cases h <;> simp [List.length_set]

/-- Every reachable pool state has exactly `NUMBER_OF_PARALLEL_MISSIONS`
worker slots. -/
theorem poolReachable_workers_length (missions : List Mission) (s : PoolState)
    (h : PoolReachable missions s) :
    s.workers.length = NUMBER_OF_PARALLEL_MISSIONS := by
  induction h with
  | refl => simp [initPool]
  | tail _ hstep ih => rw [poolStep_workers_length hstep, ih]

/-- Claim C10: in every state the batch can reach, no more than
`NUMBER_OF_PARALLEL_MISSIONS = 4` resolve operations are in flight
simultaneously, for a batch of any size. -/
theorem resolve_concurrency_bound (missions : List Mission) (s : PoolState)
    (h : PoolReachable missions s) :
    resolvingCount s ≤ NUMBER_OF_PARALLEL_MISSIONS
    ∧ NUMBER_OF_PARALLEL_MISSIONS = 4 := by
  refine ⟨?_, rfl⟩
  calc resolvingCount s ≤ s.workers.length := List.length_filter_le _ _
  _ = NUMBER_OF_PARALLEL_MISSIONS := poolReachable_workers_length missions s h

/-- Witness for `resolve_concurrency_bound` at the initial state of a
one-mission batch. -/
theorem resolve_concurrency_bound_witness :
    resolvingCount (initPool [cMission]) ≤ NUMBER_OF_PARALLEL_MISSIONS
    ∧ NUMBER_OF_PARALLEL_MISSIONS = 4 :=
  resolve_concurrency_bound [cMission] (initPool [cMission])
    Relation.ReflTransGen.refl

end Sdarot
